import Mathlib

/-!
# Feature-voting service: shallow embedding

A shallow embedding of the feature-voting backend (Flask + SQLite).  The
durable SQLite database is modelled as an explicit `DB` value threaded through
every operation; each Python function over the database becomes a Lean
function `DB → ... → result × DB`.

Sources embedded here:
* `backend/models/database.py` — schema: `features(id, title, description,
  created_at, updated_at)` and `votes(id, feature_id, user_id, created_at)`
  with `UNIQUE(feature_id, user_id)`; both ids are `AUTOINCREMENT`.
* `backend/models/feature.py` — `Feature.save`, `Feature.get_by_id`,
  `Feature.delete`, `Feature.get_all_with_votes`.
* `backend/models/vote.py` — `Vote.add_vote`, `Vote.remove_vote`,
  `Vote.get_vote_count`, `Vote.get_votes_by_feature`.
* `backend/routes/features.py` — `create_feature`, `get_features`,
  `delete_feature`.
* `backend/routes/votes.py` — `vote_for_feature`, `remove_vote_from_feature`.

Python strings are modelled as `List Char` (`len` = `List.length`,
`str.strip()` = `pyStrip`).  Timestamps (`CURRENT_TIMESTAMP`, second
granularity, so distinct rows may share a timestamp) are modelled as an
arbitrary `Nat` clock carried in the state.  `uuid.uuid4()` is modelled as a
fresh-token generator: an injective function of a counter carried in the
state, matching the spec's "freshly generated unique token".
-/

namespace FeatureVoting

/-- Python `str`, modelled as a list of characters. -/
abbrev Str := List Char

/-- The whitespace characters stripped by Python `str.strip()`. -/
def pyIsSpace (c : Char) : Bool :=
  c = ' ' || c = '\t' || c = '\n' || c = '\r' || c = '\x0b' || c = '\x0c'

/-- Python `str.strip()`: drop leading and trailing whitespace. -/
def pyStrip (s : Str) : Str :=
  ((s.dropWhile pyIsSpace).reverse.dropWhile pyIsSpace).reverse

/-- A row of the `features` table. -/
structure DBFeature where
  id : Nat
  title : Str
  description : Str
  created_at : Nat
  updated_at : Nat
deriving DecidableEq, Repr

/-- A row of the `votes` table. -/
structure DBVote where
  id : Nat
  feature_id : Nat
  user_id : Str
  created_at : Nat
deriving DecidableEq, Repr

/-- The whole durable state: both tables plus the `AUTOINCREMENT` counters,
the fresh-token (uuid) counter, and the current wall-clock timestamp used for
`CURRENT_TIMESTAMP` defaults. -/
structure DB where
  features : List DBFeature
  votes : List DBVote
  nextFeatureId : Nat
  nextVoteId : Nat
  uuidCtr : Nat
  clock : Nat
deriving DecidableEq, Repr

/-- The freshly initialised database: both tables empty, ids start at 1
(SQLite `AUTOINCREMENT`). -/
def initDB : DB := ⟨[], [], 1, 1, 0, 0⟩

/-- Model of `str(uuid.uuid4())`: the n-th token generated.  Injective, and
distinct tokens never collide — the model of uuid4 uniqueness. -/
def genToken (n : Nat) : Str :=
  '#' :: List.replicate n '!'

/-- `SELECT id FROM features WHERE id = ?` returns a row. -/
def featureExists (db : DB) (feature_id : Nat) : Bool :=
  db.features.any (fun f => f.id == feature_id)

/-- `SELECT id FROM votes WHERE feature_id = ? AND user_id = ?` returns a
row. -/
def voteExists (db : DB) (feature_id : Nat) (user_id : Str) : Bool :=
  db.votes.any (fun v => v.feature_id == feature_id && v.user_id == user_id)

/-- `INSERT INTO votes (feature_id, user_id) VALUES (?, ?)`: append a row
with the next autoincrement id and the current timestamp. -/
def insertVote (db : DB) (feature_id : Nat) (user_id : Str) : DB :=
  { db with
    votes := db.votes ++ [⟨db.nextVoteId, feature_id, user_id, db.clock⟩]
    nextVoteId := db.nextVoteId + 1 }

/-- `Vote.get_vote_count`: `SELECT COUNT(*) FROM votes WHERE feature_id = ?`. -/
def get_vote_count (db : DB) (feature_id : Nat) : Nat :=
  (db.votes.filter (fun v => v.feature_id == feature_id)).length

/-- `Vote.get_votes_by_feature`: `SELECT * FROM votes WHERE feature_id = ?`. -/
def get_votes_by_feature (db : DB) (feature_id : Nat) : List DBVote :=
  db.votes.filter (fun v => v.feature_id == feature_id)

/-- The result dictionary of `Vote.add_vote`, keyed on its `message` string:
`success=True` carries the `user_id` key; the three failure messages are
`Feature not found`, `User has already voted for this feature` and the
generic `Error adding vote` produced when a statement raises (for instance a
`UNIQUE` constraint violation). -/
inductive AddVoteResult where
  | success (user_id : Str)
  | featureNotFound
  | alreadyVoted
  | storageError
deriving DecidableEq, Repr

/-- `Vote.add_vote(feature_id, user_id=None)`: generate a uuid when
`user_id is None`, then check the feature exists, check for a duplicate vote,
and insert.  (Run sequentially the insert cannot raise, so the
`storageError` branch does not occur here; it is reachable only under the
interleaved execution modelled below.) -/
def add_vote (db : DB) (feature_id : Nat) (user_id? : Option Str) :
    AddVoteResult × DB :=
  let (user_id, db) :=
    match user_id? with
    | none => (genToken db.uuidCtr, { db with uuidCtr := db.uuidCtr + 1 })
    | some u => (u, db)
  if !featureExists db feature_id then
    (.featureNotFound, db)
  else if voteExists db feature_id user_id then
    (.alreadyVoted, db)
  else
    (.success user_id, insertVote db feature_id user_id)

/-- The result dictionary of `Vote.remove_vote`: success, or the
`Vote not found` failure (rowcount 0). -/
inductive RemoveVoteResult where
  | removed
  | voteNotFound
deriving DecidableEq, Repr

/-- `Vote.remove_vote(feature_id, user_id)`:
`DELETE FROM votes WHERE feature_id = ? AND user_id = ?`, succeeding iff the
delete touched at least one row. -/
def remove_vote (db : DB) (feature_id : Nat) (user_id : Str) :
    RemoveVoteResult × DB :=
  let remaining :=
    db.votes.filter (fun v => !(v.feature_id == feature_id && v.user_id == user_id))
  if remaining.length < db.votes.length then
    (.removed, { db with votes := remaining })
  else
    (.voteNotFound, db)

/-- `Feature.get_by_id`: `SELECT * FROM features WHERE id = ?` (first row). -/
def get_by_id (db : DB) (feature_id : Nat) : Option DBFeature :=
  db.features.find? (fun f => f.id == feature_id)

/-- `Feature.save` on a fresh object (`id is None`):
`INSERT INTO features (title, description) VALUES (?, ?)`. -/
def saveNewFeature (db : DB) (title description : Str) : DBFeature × DB :=
  let f : DBFeature := ⟨db.nextFeatureId, title, description, db.clock, db.clock⟩
  (f, { db with features := db.features ++ [f], nextFeatureId := db.nextFeatureId + 1 })

/-- `Feature.save` on an object with an id:
`UPDATE features SET title = ?, description = ?, updated_at =
CURRENT_TIMESTAMP WHERE id = ?`. -/
def updateFeature (db : DB) (feature_id : Nat) (title description : Str) : DB :=
  { db with
    features := db.features.map (fun f =>
      if f.id == feature_id then
        { f with title := title, description := description, updated_at := db.clock }
      else f) }

/-- `Feature.delete(feature_id)`: delete the feature's votes, then the
feature row; report whether the feature delete touched a row
(`cursor.rowcount > 0` after the second statement). -/
def Feature.delete (db : DB) (feature_id : Nat) : Bool × DB :=
  let votes' := db.votes.filter (fun v => !(v.feature_id == feature_id))
  let features' := db.features.filter (fun f => !(f.id == feature_id))
  (features'.length < db.features.length,
   { db with features := features', votes := votes' })

/-- The ordering of `Feature.get_all_with_votes`'s SQL query,
`ORDER BY vote_count DESC, f.created_at DESC`, as a relation on
(feature row, vote count) pairs: `a` sorts no later than `b`. -/
def rankRel (a b : DBFeature × Nat) : Prop :=
  b.2 < a.2 ∨ (a.2 = b.2 ∧ b.1.created_at ≤ a.1.created_at)

instance : DecidableRel rankRel := fun a b => by
  unfold rankRel; infer_instance

instance : IsTotal (DBFeature × Nat) rankRel := by
  constructor
  intro a b
  unfold rankRel
  omega

instance : IsTrans (DBFeature × Nat) rankRel := by
  constructor
  intro a b c hab hbc
  unfold rankRel at *
  omega

/-- `Feature.get_all_with_votes`: join each feature row with its vote count
(`LEFT JOIN` + `GROUP BY f.id` + `COUNT(v.id)`, giving 0 when no votes), then
`ORDER BY vote_count DESC, f.created_at DESC`.  SQL does not fix the order of
rows whose sort keys tie exactly, so any sort by `rankRel` is a faithful
embedding; size-one buckets behave identically under every sort. -/
def get_all_with_votes (db : DB) : List (DBFeature × Nat) :=
  List.insertionSort rankRel
    (db.features.map (fun f => (f, get_vote_count db f.id)))

/-! ## Route layer (`backend/routes/votes.py`, `backend/routes/features.py`) -/

/-- The JSON responses of `vote_for_feature` (POST
`/api/features/<feature_id>/vote`): 201 with the user id used and the
refreshed vote count, 404, 409, or 400 for the generic model failure. -/
inductive VoteRouteResult where
  | created (user_id : Str) (vote_count : Nat)
  | notFound
  | conflict
  | badRequest
deriving DecidableEq, Repr

/-- Route `vote_for_feature(feature_id)`.  `user_id?` is `data.get('user_id')`
from the request body (`none` when absent or the body is missing).  Python's
`if not user_id` treats both `None` and the empty string as absent and
substitutes `str(uuid.uuid4())`; on model success the route re-reads
`Vote.get_vote_count` on the updated state. -/
def vote_for_feature (db : DB) (feature_id : Nat) (user_id? : Option Str) :
    VoteRouteResult × DB :=
  let (user_id, db) :=
    if user_id? = none ∨ user_id? = some [] then
      (genToken db.uuidCtr, { db with uuidCtr := db.uuidCtr + 1 })
    else
      (user_id?.getD [], db)
  match add_vote db feature_id (some user_id) with
  | (.success uid, db') => (.created uid (get_vote_count db' feature_id), db')
  | (.featureNotFound, db') => (.notFound, db')
  | (.alreadyVoted, db') => (.conflict, db')
  | (.storageError, db') => (.badRequest, db')

/-- The JSON responses of `remove_vote_from_feature` (DELETE
`/api/features/<feature_id>/vote`): 200 with the refreshed count, 400 when no
`user_id` was supplied, 404 otherwise. -/
inductive RemoveRouteResult where
  | ok (vote_count : Nat)
  | userIdRequired
  | notFound
deriving DecidableEq, Repr

/-- Route `remove_vote_from_feature(feature_id)`: requires a truthy
`user_id` in the body, calls `Vote.remove_vote`, and on success re-reads
`Vote.get_vote_count` on the updated state. -/
def remove_vote_from_feature (db : DB) (feature_id : Nat)
    (user_id? : Option Str) : RemoveRouteResult × DB :=
  if user_id? = none ∨ user_id? = some [] then
    (.userIdRequired, db)
  else
    let user_id := user_id?.getD []
    match remove_vote db feature_id user_id with
    | (.removed, db') => (.ok (get_vote_count db' feature_id), db')
    | (.voteNotFound, db') => (.notFound, db')

/-- The request body of `create_feature`: `data.get('title')` and
`data.get('description')` (`none` when the key is absent or null). -/
structure CreateBody where
  title? : Option Str
  descr? : Option Str
deriving DecidableEq, Repr

/-- The JSON responses of `create_feature` (POST `/api/features`): 201 with
the stored row and `vote_count: 0`, or a 400 validation failure.  (The 500
branches require a storage fault and are unreachable in the model.) -/
inductive CreateResult where
  | created (f : DBFeature) (vote_count : Nat)
  | validationError
deriving DecidableEq, Repr

/-- Route `create_feature()`.  Checks, in source order: a falsy body
(missing or empty JSON object), a falsy title (absent, null or empty),
a whitespace-only title, `len(title) > 200` on the *raw* title,
`len(description) > 1000` on the raw description; then saves
`Feature(title=title.strip(), description=description.strip())` and answers
with `vote_count: 0`. -/
def create_feature (db : DB) (data? : Option CreateBody) : CreateResult × DB :=
  match data? with
  | none => (.validationError, db)
  | some data =>
    let title := data.title?.getD []
    let descr := data.descr?.getD []
    if title = [] then (.validationError, db)
    else if pyStrip title = [] then (.validationError, db)
    else if 200 < title.length then (.validationError, db)
    else if 1000 < descr.length then (.validationError, db)
    else
      let (f, db') := saveNewFeature db (pyStrip title) (pyStrip descr)
      (.created f 0, db')

/-- The 200 response of `get_features` (GET `/api/features`): the (possibly
paginated) feature page, `total_count`, and `returned_count`. -/
structure FeaturesPage where
  features : List (DBFeature × Nat)
  total_count : Nat
  returned_count : Nat
deriving DecidableEq, Repr

/-- Route `get_features()`.  `limit` is `request.args.get('limit', type=int)`
(absent → `None`), `offset` defaults to 0; the claims quantify over
non-negative values so both are `Nat`.  Python's `if limit:` applies the
slice `features[offset:offset + limit]` only when `limit` is neither `None`
nor `0`; `total_count` re-runs the full query. -/
def get_features (db : DB) (limit? : Option Nat) (offset : Nat) : FeaturesPage :=
  let features := get_all_with_votes db
  let page :=
    if limit? = none ∨ limit? = some 0 then features
    else (features.drop offset).take (limit?.getD 0)
  ⟨page, (get_all_with_votes db).length, page.length⟩

/-- The JSON responses of `delete_feature` (DELETE
`/api/features/<feature_id>`): 200 on success, 404 `Feature not found`, and
the structurally distinct 500 `Failed to delete feature` storage failure. -/
inductive DeleteRouteResult where
  | ok
  | notFound
  | serverError
deriving DecidableEq, Repr

/-- Route `delete_feature(feature_id)`: 404 when `Feature.get_by_id` finds
nothing (before touching anything), then `Feature.delete`, mapping `False`
to the 500 response. -/
def delete_feature (db : DB) (feature_id : Nat) : DeleteRouteResult × DB :=
  match get_by_id db feature_id with
  | none => (.notFound, db)
  | some _ =>
    match Feature.delete db feature_id with
    | (true, db') => (.ok, db')
    | (false, db') => (.serverError, db')

/-! ## Interleaved execution of `Vote.add_vote`

`Vote.add_vote` runs three separate SQL statements — existence check,
duplicate check, insert — on a shared database, and SQLite's
`UNIQUE(feature_id, user_id)` constraint makes a conflicting insert raise,
which the `except` clause turns into the generic `Error adding vote` result.
Two concurrent calls for the same pair are modelled as two copies of this
three-step program interleaved by an arbitrary boolean schedule. -/

/-- The program counter of one in-flight `add_vote` call. -/
inductive ProcState where
  | atStart
  | afterFeatChk
  | afterDupChk
  | done (r : AddVoteResult)
deriving DecidableEq, Repr

/-- One SQL statement of `add_vote(feature_id, user_id)` against the shared
state.  At the insert, a row that appeared since the duplicate check
violates the `UNIQUE` constraint: the statement raises and the call returns
the generic `storageError` result. -/
def procStep (feature_id : Nat) (user_id : Str) (db : DB) :
    ProcState → ProcState × DB
  | .atStart =>
    if featureExists db feature_id then (.afterFeatChk, db)
    else (.done .featureNotFound, db)
  | .afterFeatChk =>
    if voteExists db feature_id user_id then (.done .alreadyVoted, db)
    else (.afterDupChk, db)
  | .afterDupChk =>
    if voteExists db feature_id user_id then (.done .storageError, db)
    else (.done (.success user_id), insertVote db feature_id user_id)
  | .done r => (.done r, db)

/-- Two concurrent `add_vote` calls for the same pair plus the shared
database. -/
structure ConcState where
  db : DB
  p1 : ProcState
  p2 : ProcState
deriving DecidableEq, Repr

/-- One scheduling decision: `true` steps the first caller, `false` the
second. -/
def concStep (feature_id : Nat) (user_id : Str) (s : ConcState) :
    Bool → ConcState
  | true => ⟨(procStep feature_id user_id s.db s.p1).2,
             (procStep feature_id user_id s.db s.p1).1, s.p2⟩
  | false => ⟨(procStep feature_id user_id s.db s.p2).2, s.p1,
              (procStep feature_id user_id s.db s.p2).1⟩

/-- Run the two interleaved calls under a schedule. -/
def runConc (feature_id : Nat) (user_id : Str) (s : ConcState)
    (sched : List Bool) : ConcState :=
  sched.foldl (concStep feature_id user_id) s

/-- Whether a call has finished. -/
def ProcState.isDone : ProcState → Bool
  | .done _ => true
  | _ => false

/-- Whether a call has finished successfully. -/
def ProcState.isSuccess : ProcState → Bool
  | .done (.success _) => true
  | _ => false

/-! ## Operation traces (the public surface, for reachability) -/

/-- One invocation of the public operation surface, with its arguments. -/
inductive Op where
  | createF (data? : Option CreateBody)
  | castV (feature_id : Nat) (user_id? : Option Str)
  | retractV (feature_id : Nat) (user_id? : Option Str)
  | deleteF (feature_id : Nat)
  | updateF (feature_id : Nat) (title description : Str)
  | tick

/-- The state transition of one operation (the route handlers' effect on the
database; `tick` is the wall clock advancing between requests). -/
def applyOp (db : DB) : Op → DB
  | .createF data? => (create_feature db data?).2
  | .castV fid uid? => (vote_for_feature db fid uid?).2
  | .retractV fid uid? => (remove_vote_from_feature db fid uid?).2
  | .deleteF fid => (delete_feature db fid).2
  | .updateF fid t d => updateFeature db fid t d
  | .tick => { db with clock := db.clock + 1 }

/-- Run a trace of operations from a starting state. -/
def runOps (db : DB) (ops : List Op) : DB :=
  ops.foldl applyOp db

/-- The referential-integrity invariant: every vote row's `feature_id`
references an existing feature row. -/
def noOrphans (db : DB) : Prop :=
  ∀ v ∈ db.votes, ∃ f ∈ db.features, f.id = v.feature_id

/-! ## Concrete states used to instantiate the theorems -/

/-- A feature row with id 1. -/
def exFeature : DBFeature := ⟨1, ['a'], [], 0, 0⟩

/-- A database holding one feature (id 1) and no votes. -/
def exDB1 : DB := ⟨[exFeature], [], 2, 1, 0, 0⟩

/-- A database holding one feature (id 1) and one vote on it by user `u`. -/
def exDB2 : DB := ⟨[exFeature], [⟨1, 1, ['u'], 0⟩], 2, 2, 0, 0⟩

/-- The invariant tying the shared database to the two interleaved
`add_vote` callers for the pair `(feature_id, user_id)`: the feature table
never changes, the pair's row exists exactly when one caller has already
succeeded, the two callers never both succeed, no caller ends in
`featureNotFound`, and a caller that failed on the duplicate path
(`alreadyVoted` or the constraint-violation `storageError`) saw the row, so
some caller succeeded. -/
def ConcInv (feature_id : Nat) (user_id : Str) (db₀ : DB) (s : ConcState) :
    Prop :=
  s.db.features = db₀.features ∧
  voteExists s.db feature_id user_id = (s.p1.isSuccess || s.p2.isSuccess) ∧
  ¬(s.p1.isSuccess = true ∧ s.p2.isSuccess = true) ∧
  s.p1 ≠ .done .featureNotFound ∧
  s.p2 ≠ .done .featureNotFound ∧
  ((s.p1 = .done .alreadyVoted ∨ s.p1 = .done .storageError) →
    voteExists s.db feature_id user_id = true) ∧
  ((s.p2 = .done .alreadyVoted ∨ s.p2 = .done .storageError) →
    voteExists s.db feature_id user_id = true)

/-! ## Helper lemmas -/

/-- Stripping the empty string gives the empty string. -/
theorem pyStrip_nil : pyStrip [] = [] := rfl

/-- Dropping one matching row shortens the list exactly when a row
matches. -/
theorem length_filter_not_lt_iff_any {α : Type} (l : List α) (p : α → Bool) :
    ((l.filter (fun a => !(p a))).length < l.length ↔ l.any p = true) := by
  induction l with
  | nil => simp
  | cons a t ih =>
    cases h : p a
    · simpa [h] using ih
    · have hle := List.length_filter_le (fun a => !(p a)) t
      simp [h]
      omega

/-- Counting rows satisfying `p` splits across a second test `q`. -/
theorem length_filter_and_split {α : Type} (l : List α) (p q : α → Bool) :
    (l.filter p).length =
      (l.filter (fun a => p a && q a)).length +
      (l.filter (fun a => p a && !(q a))).length := by
  induction l with
  | nil => rfl
  | cons a t ih =>
    cases hp : p a <;> cases hq : q a <;> simp [hp, hq] <;> omega

/-- Filtering first by the negation of a conjunction and then by its first
conjunct keeps exactly the rows satisfying the first conjunct but not the
second. -/
theorem filter_filter_not_and {α : Type} (l : List α) (p q : α → Bool) :
    (l.filter (fun a => !(p a && q a))).filter p =
      l.filter (fun a => p a && !(q a)) := by
  rw [List.filter_filter]
  exact List.filter_congr (fun x _ => by cases hp : p x <;> cases hq : q x <;>
    simp [hp, hq])

/-- No survivor of filtering by the negation of `p` satisfies `p`. -/
theorem any_of_filter_not {α : Type} (l : List α) (p : α → Bool) :
    (l.filter (fun a => !(p a))).any p = false := by
  induction l with
  | nil => rfl
  | cons a t ih => cases hp : p a <;> simp [hp, ih]

/-- A nonempty filter means some row matches. -/
theorem any_of_filter_length_pos {α : Type} (l : List α) (p : α → Bool)
    (h : 0 < (l.filter p).length) : l.any p = true := by
  induction l with
  | nil => simp at h
  | cons a t ih =>
    cases hp : p a
    · simp only [List.filter_cons, hp, if_neg] at h
      simp [hp, ih h]
    · simp [hp]

/-- The delete in `remove_vote` touches a row exactly when the pair's vote
exists. -/
theorem voteExists_iff_filter_lt (db : DB) (fid : Nat) (uid : Str) :
    ((db.votes.filter
        (fun v => !(v.feature_id == fid && v.user_id == uid))).length <
      db.votes.length) ↔ voteExists db fid uid = true :=
  length_filter_not_lt_iff_any db.votes _

/-- Inserting a vote for a feature raises that feature's count by one. -/
theorem get_vote_count_insertVote (db : DB) (fid : Nat) (uid : Str) :
    get_vote_count (insertVote db fid uid) fid = get_vote_count db fid + 1 := by
  simp [get_vote_count, insertVote, List.filter_append]

/-! ## C4: ranking order and determinism -/

/-- C4: `listFeatures` returns the feature/vote-count tuples sorted by vote
count descending, ties broken by feature creation time descending (each
element sorts no later than every later element under `rankRel`), and two
calls on the same state yield identical orderings. -/
theorem listFeatures_sorted_and_deterministic (db : DB) :
    List.Sorted rankRel (get_all_with_votes db) ∧
    get_all_with_votes db = get_all_with_votes db :=
  ⟨List.sorted_insertionSort rankRel _, rfl⟩

/-! ## C5: pagination -/

/-- C5 counterexample: with one feature in the store, `limit=0, offset=0`
must — per the claim — return the elements at sorted positions `[0, 0)`,
the empty page; the code's `if limit:` treats `0` as "no pagination" and
returns the full list instead. -/
theorem get_features_limit_zero_not_slice :
    (get_features exDB1 (some 0) 0).features ≠
      ((get_all_with_votes exDB1).drop 0).take 0 := by
  decide

/-- C5 amended: for every positive limit `k+1` the page is exactly the
sorted positions `[o, o+k+1)` (slice applied after the full sort); but when
`limit` is `0` or absent, Python's falsy test skips pagination and the full
sorted sequence is returned with `offset` ignored. -/
theorem get_features_pagination (db : DB) (o k : Nat) :
    (get_features db (some (k + 1)) o).features =
      ((get_all_with_votes db).drop o).take (k + 1) ∧
    (get_features db (some 0) o).features = get_all_with_votes db ∧
    (get_features db none o).features = get_all_with_votes db := by
  refine ⟨?_, ?_, ?_⟩ <;> simp [get_features]

/-! ## C6: createFeature validation -/

/-- A 201-character title whose trimmed form has exactly 200 characters. -/
def t201 : Str := List.replicate 200 'a' ++ [' ']

set_option maxRecDepth 100000 in
/-- C6 counterexample: the title of 200 `a`s plus a trailing space trims to
200 characters, so by the claim (trimmed length bound) creation must
succeed, but `create_feature` measures the raw title (201 characters) and
rejects it with a validation error. -/
theorem create_feature_measures_raw_title :
    (create_feature initDB (some ⟨some t201, some []⟩)).1 =
      CreateResult.validationError ∧
    (pyStrip t201).length ≤ 200 ∧ pyStrip t201 ≠ [] ∧
    ([] : Str).length ≤ 1000 := by
  refine ⟨by decide, by decide, by decide, by decide⟩

/-- C6 amended: `create_feature` fails with a validation error exactly when
the title is empty or whitespace-only after trimming, the *raw* (untrimmed)
title exceeds 200 characters, or the description exceeds 1000 characters;
otherwise it returns the freshly stored feature row with vote count 0. -/
theorem create_feature_validation (db : DB) (t d : Str) :
    ((create_feature db (some ⟨some t, some d⟩)).1 = .validationError ↔
      (pyStrip t = [] ∨ 200 < t.length ∨ 1000 < d.length)) ∧
    ((create_feature db (some ⟨some t, some d⟩)).1 = .validationError ∨
      (create_feature db (some ⟨some t, some d⟩)).1 =
        .created ⟨db.nextFeatureId, pyStrip t, pyStrip d, db.clock, db.clock⟩ 0) := by
  simp only [create_feature, saveNewFeature, Option.getD_some]
  split_ifs with h1 h2 h3 h4 <;> simp_all [pyStrip_nil]

/-! ## C9: deleteFeature on a missing id -/

/-- C9: when no feature has the requested id, the delete route answers with
the 404 `notFound` response — a constructor structurally distinct from both
the success response and the 500 storage-failure response — and leaves the
state unchanged. -/
theorem delete_feature_missing_id (db : DB) (fid : Nat)
    (h : get_by_id db fid = none) :
    (delete_feature db fid).1 = .notFound ∧
    (delete_feature db fid).2 = db ∧
    DeleteRouteResult.notFound ≠ DeleteRouteResult.ok ∧
    DeleteRouteResult.notFound ≠ DeleteRouteResult.serverError := by
  refine ⟨?_, ?_, by simp, by simp⟩ <;> simp [delete_feature, h]

/-- C9 witness: id 7 is absent from the one-feature store. -/
theorem delete_feature_missing_id_witness :
    (delete_feature exDB1 7).1 = .notFound ∧
    (delete_feature exDB1 7).2 = exDB1 ∧
    DeleteRouteResult.notFound ≠ DeleteRouteResult.ok ∧
    DeleteRouteResult.notFound ≠ DeleteRouteResult.serverError :=
  delete_feature_missing_id exDB1 7 (by decide)

/-! ## C1: castVote -/

/-- C1: with a caller-supplied (non-empty) user id, the vote route fails
with the 404 `FeatureNotFound` response when the feature is absent, fails
with the 409 `DuplicateVote` response when the pair already voted (both
leaving the state untouched), and otherwise appends exactly one vote row for
the pair and answers 201 with the pair's vote count in the new state, which
is one more than in the old state. -/
theorem cast_vote_spec (db : DB) (fid : Nat) (uid : Str) (huid : uid ≠ []) :
    (featureExists db fid = false →
      (vote_for_feature db fid (some uid)).1 = .notFound ∧
      (vote_for_feature db fid (some uid)).2 = db) ∧
    (featureExists db fid = true → voteExists db fid uid = true →
      (vote_for_feature db fid (some uid)).1 = .conflict ∧
      (vote_for_feature db fid (some uid)).2 = db) ∧
    (featureExists db fid = true → voteExists db fid uid = false →
      (vote_for_feature db fid (some uid)).2.votes =
        db.votes ++ [⟨db.nextVoteId, fid, uid, db.clock⟩] ∧
      (vote_for_feature db fid (some uid)).1 =
        .created uid (get_vote_count (vote_for_feature db fid (some uid)).2 fid) ∧
      get_vote_count (vote_for_feature db fid (some uid)).2 fid =
        get_vote_count db fid + 1) := by
  refine ⟨fun hf => ?_, fun hf hv => ?_, fun hf hv => ?_⟩
  · simp [vote_for_feature, add_vote, huid, hf]
  · simp [vote_for_feature, add_vote, huid, hf, hv]
  · simp [vote_for_feature, add_vote, huid, hf, hv, insertVote,
      get_vote_count, List.filter_append]

/-- C1 witness: on the one-feature store, voting on the present feature 1
succeeds with count 1, and the failure branches are exercised through the
hypotheses at feature 7 (absent) and at the already-voted pair of `exDB2`. -/
theorem cast_vote_spec_witness :
    ((vote_for_feature exDB1 7 (some ['u'])).1 = .notFound ∧
      (vote_for_feature exDB1 7 (some ['u'])).2 = exDB1) ∧
    ((vote_for_feature exDB2 1 (some ['u'])).1 = .conflict ∧
      (vote_for_feature exDB2 1 (some ['u'])).2 = exDB2) ∧
    ((vote_for_feature exDB1 1 (some ['u'])).2.votes =
        exDB1.votes ++ [⟨exDB1.nextVoteId, 1, ['u'], exDB1.clock⟩] ∧
      (vote_for_feature exDB1 1 (some ['u'])).1 =
        .created ['u']
          (get_vote_count (vote_for_feature exDB1 1 (some ['u'])).2 1) ∧
      get_vote_count (vote_for_feature exDB1 1 (some ['u'])).2 1 =
        get_vote_count exDB1 1 + 1) :=
  ⟨(cast_vote_spec exDB1 7 ['u'] (by decide)).1 (by decide),
   (cast_vote_spec exDB2 1 ['u'] (by decide)).2.1 (by decide) (by decide),
   (cast_vote_spec exDB1 1 ['u'] (by decide)).2.2 (by decide) (by decide)⟩

/-! ## C7: retractVote -/

/-- C7: with a caller-supplied (non-empty) user id, the vote-removal route
deletes the matching vote row and answers 200 with the feature's vote count
in the new state when the pair's vote exists, and answers 404 leaving the
state completely unchanged when it does not. -/
theorem retract_vote_spec (db : DB) (fid : Nat) (uid : Str) (huid : uid ≠ []) :
    (voteExists db fid uid = true →
      (remove_vote_from_feature db fid (some uid)).1 =
        .ok (get_vote_count (remove_vote_from_feature db fid (some uid)).2 fid) ∧
      (remove_vote_from_feature db fid (some uid)).2 =
        { db with votes :=
            db.votes.filter (fun v => !(v.feature_id == fid && v.user_id == uid)) }) ∧
    (voteExists db fid uid = false →
      (remove_vote_from_feature db fid (some uid)).1 = .notFound ∧
      (remove_vote_from_feature db fid (some uid)).2 = db) := by
  constructor
  · intro h
    have hlt := (voteExists_iff_filter_lt db fid uid).mpr h
    simp only [remove_vote_from_feature, remove_vote]
    rw [if_neg (by simp [huid])]
    simp only [Option.getD_some]
    rw [if_pos hlt]
    exact ⟨rfl, rfl⟩
  · intro h
    have hnlt : ¬((db.votes.filter
        (fun v => !(v.feature_id == fid && v.user_id == uid))).length <
          db.votes.length) := by
      rw [voteExists_iff_filter_lt, h]; simp
    simp only [remove_vote_from_feature, remove_vote]
    rw [if_neg (by simp [huid])]
    simp only [Option.getD_some]
    rw [if_neg hnlt]
    exact ⟨rfl, rfl⟩

/-- C7 witness: retracting user `u`'s existing vote on feature 1 of `exDB2`
succeeds and reports count 0; retracting the absent vote of user `w` answers
404 and leaves the state unchanged. -/
theorem retract_vote_spec_witness :
    ((remove_vote_from_feature exDB2 1 (some ['u'])).1 =
        .ok (get_vote_count (remove_vote_from_feature exDB2 1 (some ['u'])).2 1) ∧
      (remove_vote_from_feature exDB2 1 (some ['u'])).2 =
        { exDB2 with votes :=
            exDB2.votes.filter (fun v => !(v.feature_id == 1 && v.user_id == ['u'])) }) ∧
    ((remove_vote_from_feature exDB2 1 (some ['w'])).1 = .notFound ∧
      (remove_vote_from_feature exDB2 1 (some ['w'])).2 = exDB2) :=
  ⟨(retract_vote_spec exDB2 1 ['u'] (by decide)).1 (by decide),
   (retract_vote_spec exDB2 1 ['w'] (by decide)).2 (by decide)⟩

/-- The state left by a successful vote removal: the matching rows are
filtered out and nothing else changes. -/
theorem remove_route_state (db : DB) (fid : Nat) (uid : Str)
    (huid : uid ≠ []) (h : voteExists db fid uid = true) :
    (remove_vote_from_feature db fid (some uid)).2 =
      { db with votes :=
          db.votes.filter (fun v => !(v.feature_id == fid && v.user_id == uid)) } := by
  have hlt := (voteExists_iff_filter_lt db fid uid).mpr h
  simp only [remove_vote_from_feature, remove_vote]
  rw [if_neg (by simp [huid])]
  simp only [Option.getD_some]
  rw [if_pos hlt]

/-- `Vote.add_vote` with a supplied user id on an existing feature without a
prior vote inserts the row and reports success. -/
theorem add_vote_success (db : DB) (fid : Nat) (uid : Str)
    (hfeat : featureExists db fid = true) (hv : voteExists db fid uid = false) :
    add_vote db fid (some uid) = (.success uid, insertVote db fid uid) := by
  simp only [add_vote, hfeat, Bool.not_true]
  rw [if_neg (by simp), if_neg (by simp [hv])]

/-- The vote route with a supplied non-empty user id on an existing feature
without a prior vote: 201, the vote row appended, count one higher. -/
theorem vote_route_success (db : DB) (fid : Nat) (uid : Str)
    (huid : uid ≠ [])
    (hfeat : featureExists db fid = true) (hv : voteExists db fid uid = false) :
    vote_for_feature db fid (some uid) =
      (.created uid (get_vote_count db fid + 1), insertVote db fid uid) := by
  simp only [vote_for_feature]
  rw [if_neg (by simp [huid])]
  simp only [Option.getD_some, add_vote_success db fid uid hfeat hv,
    get_vote_count_insertVote]

/-! ## C8: retract then re-cast -/

/-- C8: when the pair `(fid, uid)` has exactly one vote row (what the
`UNIQUE` constraint guarantees) on an existing feature, retracting that vote
and immediately casting it again with the same user id succeeds, and the
count returned by the re-cast equals the feature's vote count before the
retraction. -/
theorem retract_recast_same_count (db : DB) (fid : Nat) (uid : Str)
    (huid : uid ≠ [])
    (hfeat : featureExists db fid = true)
    (hone : (db.votes.filter
      (fun v => v.feature_id == fid && v.user_id == uid)).length = 1) :
    (vote_for_feature (remove_vote_from_feature db fid (some uid)).2 fid
        (some uid)).1 =
      .created uid (get_vote_count db fid) := by
  have hv : voteExists db fid uid = true :=
    any_of_filter_length_pos db.votes _ (by omega)
  rw [remove_route_state db fid uid huid hv]
  rw [vote_route_success
    { db with votes :=
        db.votes.filter (fun v => !(v.feature_id == fid && v.user_id == uid)) }
    fid uid huid hfeat
    (any_of_filter_not db.votes (fun v => v.feature_id == fid && v.user_id == uid))]
  have hsplit := length_filter_and_split db.votes
    (fun v => v.feature_id == fid) (fun v => v.user_id == uid)
  have hff := filter_filter_not_and db.votes
    (fun v => v.feature_id == fid) (fun v => v.user_id == uid)
  show VoteRouteResult.created uid
      ((List.filter (fun v => v.feature_id == fid)
        (db.votes.filter (fun v => !(v.feature_id == fid && v.user_id == uid)))).length + 1) =
    VoteRouteResult.created uid (get_vote_count db fid)
  rw [hff]
  unfold get_vote_count
  congr 1
  omega

/-- C8 witness: on the one-feature, one-vote store, retracting user `u`'s
vote and re-casting it returns the original count 1. -/
theorem retract_recast_same_count_witness :
    (vote_for_feature (remove_vote_from_feature exDB2 1 (some ['u'])).2 1
        (some ['u'])).1 =
      .created ['u'] (get_vote_count exDB2 1) :=
  retract_recast_same_count exDB2 1 ['u'] (by decide) (by decide) (by decide)

/-- Generated tokens with different indices differ (uuid uniqueness in the
model). -/
theorem genToken_ne {m n : Nat} (h : m ≠ n) : genToken m ≠ genToken n := by
  intro heq
  apply h
  have hlen := congrArg List.length heq
  simpa [genToken] using hlen

/-- A user id no vote row carries cannot have voted. -/
theorem voteExists_eq_false_of_fresh (db : DB) (fid : Nat) (uid : Str)
    (h : ∀ v ∈ db.votes, v.user_id ≠ uid) : voteExists db fid uid = false := by
  rw [voteExists, List.any_eq_false]
  intro v hv
  simp [h v hv]

/-- The vote route on the generate branch (empty-string user id): mint the
next token, bump the counter, insert, 201. -/
theorem vote_route_gen_eq (db : DB) (fid : Nat)
    (hfeat : featureExists db fid = true)
    (hv : voteExists db fid (genToken db.uuidCtr) = false) :
    vote_for_feature db fid (some []) =
      (.created (genToken db.uuidCtr)
        (get_vote_count
          (insertVote { db with uuidCtr := db.uuidCtr + 1 } fid
            (genToken db.uuidCtr)) fid),
       insertVote { db with uuidCtr := db.uuidCtr + 1 } fid
         (genToken db.uuidCtr)) := by
  have hadd := add_vote_success { db with uuidCtr := db.uuidCtr + 1 } fid
    (genToken db.uuidCtr) hfeat hv
  simp [vote_for_feature, hadd]

/-! ## C10: empty-string user id treated as absent -/

/-- C10: at the vote route an empty-string user id behaves exactly like an
absent one — the same response and state as the `none` request — so each such
call mints a fresh generated identity; two successive empty-string calls on
an existing feature (whose stored votes carry no token the generator has yet
to mint) both succeed, with distinct generated identities. -/
theorem empty_user_id_treated_as_absent (db : DB) (fid : Nat)
    (hfeat : featureExists db fid = true)
    (hfresh : ∀ n, db.uuidCtr ≤ n → ∀ v ∈ db.votes, v.user_id ≠ genToken n) :
    vote_for_feature db fid (some []) = vote_for_feature db fid none ∧
    (vote_for_feature db fid (some [])).1 =
      .created (genToken db.uuidCtr)
        (get_vote_count (vote_for_feature db fid (some [])).2 fid) ∧
    (vote_for_feature (vote_for_feature db fid (some [])).2 fid (some [])).1 =
      .created (genToken (db.uuidCtr + 1))
        (get_vote_count
          (vote_for_feature (vote_for_feature db fid (some [])).2 fid
            (some [])).2 fid) ∧
    genToken db.uuidCtr ≠ genToken (db.uuidCtr + 1) := by
  have hv1 : voteExists db fid (genToken db.uuidCtr) = false :=
    voteExists_eq_false_of_fresh db fid _ (hfresh db.uuidCtr le_rfl)
  have h1 := vote_route_gen_eq db fid hfeat hv1
  have hdb1 : (vote_for_feature db fid (some [])).2 =
      insertVote { db with uuidCtr := db.uuidCtr + 1 } fid
        (genToken db.uuidCtr) := by rw [h1]
  refine ⟨?_, ?_, ?_, genToken_ne (by omega)⟩
  · simp [vote_for_feature]
  · rw [h1]
  · rw [hdb1]
    have hfresh2 : ∀ v ∈ (insertVote { db with uuidCtr := db.uuidCtr + 1 } fid
        (genToken db.uuidCtr)).votes,
        v.user_id ≠ genToken (db.uuidCtr + 1) := by
      intro v hvmem
      simp only [insertVote, List.mem_append, List.mem_singleton] at hvmem
      rcases hvmem with hold | hnew
      · exact hfresh (db.uuidCtr + 1) (by omega) v hold
      · rw [hnew]
        exact genToken_ne (by omega)
    have hv2 : voteExists
        (insertVote { db with uuidCtr := db.uuidCtr + 1 } fid
          (genToken db.uuidCtr)) fid (genToken (db.uuidCtr + 1)) = false :=
      voteExists_eq_false_of_fresh _ fid _ hfresh2
    have h2 := vote_route_gen_eq
      (insertVote { db with uuidCtr := db.uuidCtr + 1 } fid
        (genToken db.uuidCtr)) fid hfeat hv2
    rw [h2]
    rfl

/-- C10 witness: on the one-feature store (fresh token supply untouched),
two empty-string votes on feature 1 both succeed with the distinct generated
identities of counters 0 and 1. -/
theorem empty_user_id_treated_as_absent_witness :
    vote_for_feature exDB1 1 (some []) = vote_for_feature exDB1 1 none ∧
    (vote_for_feature exDB1 1 (some [])).1 =
      .created (genToken exDB1.uuidCtr)
        (get_vote_count (vote_for_feature exDB1 1 (some [])).2 1) ∧
    (vote_for_feature (vote_for_feature exDB1 1 (some [])).2 1 (some [])).1 =
      .created (genToken (exDB1.uuidCtr + 1))
        (get_vote_count
          (vote_for_feature (vote_for_feature exDB1 1 (some [])).2 1
            (some [])).2 1) ∧
    genToken exDB1.uuidCtr ≠ genToken (exDB1.uuidCtr + 1) :=
  empty_user_id_treated_as_absent exDB1 1 (by decide)
    (fun _ _ v hv => by simp [exDB1] at hv)

/-! ## C2: no orphaned votes -/

/-- `Vote.add_vote` preserves referential integrity: it inserts only after
the feature-existence check passed. -/
theorem noOrphans_add_vote (db : DB) (fid : Nat) (uid? : Option Str)
    (h : noOrphans db) : noOrphans (add_vote db fid uid?).2 := by
  have key : ∀ (dbx : DB) (u : Str), noOrphans dbx →
      noOrphans (if !featureExists dbx fid then ((.featureNotFound : AddVoteResult), dbx)
        else if voteExists dbx fid u then (.alreadyVoted, dbx)
        else (.success u, insertVote dbx fid u)).2 := by
    intro dbx u hx
    by_cases hf : featureExists dbx fid
    · rw [if_neg (by simp [hf])]
      by_cases hv : voteExists dbx fid u
      · rw [if_pos hv]; exact hx
      · rw [if_neg hv]
        intro v hvmem
        simp only [insertVote, List.mem_append, List.mem_singleton] at hvmem
        rcases hvmem with hold | hnew
        · exact hx v hold
        · obtain ⟨f, hfm, hfid⟩ := List.any_eq_true.mp hf
          exact ⟨f, hfm, by rw [hnew]; simpa using hfid⟩
    · rw [if_pos (by simp [hf])]; exact hx
  match uid? with
  | none => exact key { db with uuidCtr := db.uuidCtr + 1 } _ h
  | some u => exact key db u h

/-- The vote route preserves referential integrity. -/
theorem noOrphans_vote_route (db : DB) (fid : Nat) (uid? : Option Str)
    (h : noOrphans db) : noOrphans (vote_for_feature db fid uid?).2 := by
  have key : ∀ (dbx : DB) (u : Str), noOrphans dbx →
      noOrphans (match add_vote dbx fid (some u) with
        | (.success uid, db') =>
          ((VoteRouteResult.created uid (get_vote_count db' fid) : VoteRouteResult), db')
        | (.featureNotFound, db') => (.notFound, db')
        | (.alreadyVoted, db') => (.conflict, db')
        | (.storageError, db') => (.badRequest, db')).2 := by
    intro dbx u hx
    have hadd := noOrphans_add_vote dbx fid (some u) hx
    rcases hres : add_vote dbx fid (some u) with ⟨r, db'⟩
    rw [hres] at hadd
    cases r <;> simpa using hadd
  unfold vote_for_feature
  by_cases hc : uid? = none ∨ uid? = some []
  · rw [if_pos hc]
    exact key { db with uuidCtr := db.uuidCtr + 1 } _ h
  · rw [if_neg hc]
    exact key db _ h

/-- The vote-removal route preserves referential integrity. -/
theorem noOrphans_remove_route (db : DB) (fid : Nat) (uid? : Option Str)
    (h : noOrphans db) : noOrphans (remove_vote_from_feature db fid uid?).2 := by
  unfold remove_vote_from_feature remove_vote
  by_cases hc : uid? = none ∨ uid? = some []
  · rw [if_pos hc]; exact h
  · rw [if_neg hc]
    dsimp only
    by_cases hlt : (db.votes.filter
        (fun v => !(v.feature_id == fid && v.user_id == uid?.getD []))).length <
          db.votes.length
    · rw [if_pos hlt]
      intro v hv
      exact h v (List.mem_of_mem_filter hv)
    · rw [if_neg hlt]; exact h

/-- `Feature.delete` preserves referential integrity: surviving votes point
at surviving features. -/
theorem noOrphans_Feature_delete (db : DB) (fid : Nat)
    (h : noOrphans db) : noOrphans (Feature.delete db fid).2 := by
  intro v hv
  simp only [Feature.delete, List.mem_filter] at hv
  obtain ⟨hvm, hvneq⟩ := hv
  obtain ⟨f, hfm, hfid⟩ := h v hvm
  refine ⟨f, List.mem_filter.mpr ⟨hfm, ?_⟩, hfid⟩
  simp only [Bool.not_eq_eq_eq_not, Bool.not_true, beq_eq_false_iff_ne] at hvneq ⊢
  rw [hfid]; exact hvneq

/-- The delete route preserves referential integrity. -/
theorem noOrphans_delete_route (db : DB) (fid : Nat)
    (h : noOrphans db) : noOrphans (delete_feature db fid).2 := by
  unfold delete_feature
  cases hg : get_by_id db fid with
  | none => exact h
  | some f =>
    have hdel := noOrphans_Feature_delete db fid h
    rcases hd : Feature.delete db fid with ⟨b, db'⟩
    rw [hd] at hdel
    cases b <;> simpa using hdel

/-- `create_feature` preserves referential integrity: it only appends a
feature row. -/
theorem noOrphans_create_route (db : DB) (data? : Option CreateBody)
    (h : noOrphans db) : noOrphans (create_feature db data?).2 := by
  unfold create_feature
  cases data? with
  | none => exact h
  | some data =>
    dsimp only
    split_ifs <;> try exact h
    intro v hv
    obtain ⟨f, hfm, hfid⟩ := h v hv
    exact ⟨f, List.mem_append_left _ hfm, hfid⟩

/-- `updateFeature` preserves referential integrity: rows change in place,
ids do not. -/
theorem noOrphans_updateFeature (db : DB) (fid : Nat) (t d : Str)
    (h : noOrphans db) : noOrphans (updateFeature db fid t d) := by
  intro v hv
  obtain ⟨f, hfm, hfid⟩ := h v hv
  refine ⟨(fun g => if g.id == fid then
      { g with title := t, description := d, updated_at := db.clock }
    else g) f, List.mem_map_of_mem _ hfm, ?_⟩
  dsimp only
  by_cases hc : (f.id == fid) = true
  · rw [if_pos hc]; exact hfid
  · rw [if_neg hc]; exact hfid

/-- Every single public operation preserves referential integrity. -/
theorem noOrphans_applyOp (db : DB) (op : Op) (h : noOrphans db) :
    noOrphans (applyOp db op) := by
  cases op with
  | createF data? => exact noOrphans_create_route db data? h
  | castV fid uid? => exact noOrphans_vote_route db fid uid? h
  | retractV fid uid? => exact noOrphans_remove_route db fid uid? h
  | deleteF fid => exact noOrphans_delete_route db fid h
  | updateF fid t d => exact noOrphans_updateFeature db fid t d h
  | tick => exact h

/-- Referential integrity holds along every trace. -/
theorem noOrphans_runOps (ops : List Op) (db : DB) (h : noOrphans db) :
    noOrphans (runOps db ops) := by
  induction ops generalizing db with
  | nil => exact h
  | cons op rest ih => exact ih (applyOp db op) (noOrphans_applyOp db op h)

/-- `Feature.delete` leaves no vote referencing the deleted feature. -/
theorem delete_sweeps_votes (db : DB) (fid : Nat) :
    get_votes_by_feature (Feature.delete db fid).2 fid = [] := by
  simp only [get_votes_by_feature, Feature.delete, List.filter_filter]
  have : ∀ v : DBVote, ((v.feature_id == fid) && !(v.feature_id == fid)) = false := by
    intro v; cases h : (v.feature_id == fid) <;> simp [h]
  simp [this]

/-- C2: no orphaned votes.  (a) every state reachable from the fresh
database satisfies referential integrity; (b) every public operation
(create, castVote, retractVote, deleteFeature, update, clock tick)
preserves it; (c) after `Feature.delete(F)` no vote row references F; and
(d) after the delete route completes on any state satisfying the invariant,
`votesForFeature(F)` is empty. -/
theorem no_orphaned_votes :
    (∀ ops : List Op, noOrphans (runOps initDB ops)) ∧
    (∀ (db : DB) (op : Op), noOrphans db → noOrphans (applyOp db op)) ∧
    (∀ (db : DB) (fid : Nat),
      get_votes_by_feature (Feature.delete db fid).2 fid = []) ∧
    (∀ (db : DB) (fid : Nat), noOrphans db →
      get_votes_by_feature (delete_feature db fid).2 fid = []) := by
  refine ⟨fun ops => noOrphans_runOps ops initDB (by intro v hv; simp [initDB] at hv),
    noOrphans_applyOp, delete_sweeps_votes, ?_⟩
  intro db fid h
  unfold delete_feature
  cases hg : get_by_id db fid with
  | none =>
    have hnone := List.find?_eq_none.mp hg
    simp only [get_votes_by_feature]
    rw [List.filter_eq_nil_iff]
    intro v hv hbeq
    obtain ⟨f, hfm, hfid⟩ := h v hv
    exact hnone f hfm (by rw [hfid]; simpa using hbeq)
  | some f =>
    have hdel := delete_sweeps_votes db fid
    rcases hd : Feature.delete db fid with ⟨b, db'⟩
    rw [hd] at hdel
    cases b <;> simpa using hdel

/-- C2 witness: a trace that creates a feature, votes on it twice and
deletes it ends orphan-free, and the delete route on the one-vote store
leaves no vote for feature 1. -/
theorem no_orphaned_votes_witness :
    noOrphans (runOps initDB
      [.createF (some ⟨some ['a'], some []⟩), .castV 1 (some ['u']),
       .castV 1 none, .deleteF 1]) ∧
    noOrphans (applyOp exDB2 (.deleteF 1)) ∧
    get_votes_by_feature (Feature.delete exDB2 1).2 1 = [] ∧
    get_votes_by_feature (delete_feature exDB2 1).2 1 = [] :=
  ⟨no_orphaned_votes.1 _,
   no_orphaned_votes.2.1 exDB2 (.deleteF 1) (by unfold noOrphans; decide),
   no_orphaned_votes.2.2.1 exDB2 1,
   no_orphaned_votes.2.2.2 exDB2 1 (by unfold noOrphans; decide)⟩

/-! ## C3: concurrent duplicate votes -/

/-- The pair's vote surely exists right after its insert. -/
theorem voteExists_insertVote_self (db : DB) (fid : Nat) (uid : Str) :
    voteExists (insertVote db fid uid) fid uid = true := by
  simp [voteExists, insertVote]

/-- A finished caller is a `done` state. -/
theorem isDone_iff (p : ProcState) : p.isDone = true ↔ ∃ r, p = .done r := by
  cases p <;> simp [ProcState.isDone]

/-- Each interleaved statement preserves `ConcInv`. -/
theorem concInv_step (fid : Nat) (uid : Str) (db₀ : DB)
    (hfeat : featureExists db₀ fid = true)
    (s : ConcState) (b : Bool) (h : ConcInv fid uid db₀ s) :
    ConcInv fid uid db₀ (concStep fid uid s b) := by
  obtain ⟨sdb, sp1, sp2⟩ := s
  obtain ⟨hfeq, hvs, hnot2, hnf1, hnf2, hfd1, hfd2⟩ := h
  simp only at hfeq hvs hnot2 hnf1 hnf2 hfd1 hfd2
  have hfe : featureExists sdb fid = true := by
    have heq : featureExists sdb fid = featureExists db₀ fid := by
      unfold featureExists; rw [hfeq]
    rw [heq]; exact hfeat
  cases b
  · cases sp2 with
    | atStart =>
      dsimp only [concStep, procStep]
      rw [if_pos hfe]
      exact ⟨hfeq, hvs, hnot2, hnf1, by simp, hfd1, by simp⟩
    | afterFeatChk =>
      dsimp only [concStep, procStep]
      cases hvd : voteExists sdb fid uid with
      | true =>
        rw [if_pos rfl]
        exact ⟨hfeq, hvs, hnot2, hnf1, by simp, hfd1, fun _ => hvd⟩
      | false =>
        rw [if_neg Bool.false_ne_true]
        exact ⟨hfeq, hvs, hnot2, hnf1, by simp, hfd1, by simp⟩
    | afterDupChk =>
      dsimp only [concStep, procStep]
      cases hvd : voteExists sdb fid uid with
      | true =>
        rw [if_pos rfl]
        exact ⟨hfeq, hvs, hnot2, hnf1, by simp, hfd1, fun _ => hvd⟩
      | false =>
        rw [if_neg Bool.false_ne_true]
        have hsp1 : sp1.isSuccess = false := by
          rw [hvd] at hvs
          cases hs : sp1.isSuccess
          · rfl
          · rw [hs] at hvs; simp at hvs
        refine ⟨hfeq, ?_, ?_, hnf1, by simp, ?_, by simp⟩
        · rw [voteExists_insertVote_self, hsp1]; rfl
        · intro ⟨ha, _⟩; rw [hsp1] at ha; exact Bool.false_ne_true ha
        · intro hcase
          exact voteExists_insertVote_self sdb fid uid
    | done r =>
      dsimp only [concStep, procStep]
      exact ⟨hfeq, hvs, hnot2, hnf1, hnf2, hfd1, hfd2⟩
  · cases sp1 with
    | atStart =>
      dsimp only [concStep, procStep]
      rw [if_pos hfe]
      exact ⟨hfeq, hvs, hnot2, by simp, hnf2, by simp, hfd2⟩
    | afterFeatChk =>
      dsimp only [concStep, procStep]
      cases hvd : voteExists sdb fid uid with
      | true =>
        rw [if_pos rfl]
        exact ⟨hfeq, hvs, hnot2, by simp, hnf2, fun _ => hvd, hfd2⟩
      | false =>
        rw [if_neg Bool.false_ne_true]
        exact ⟨hfeq, hvs, hnot2, by simp, hnf2, by simp, hfd2⟩
    | afterDupChk =>
      dsimp only [concStep, procStep]
      cases hvd : voteExists sdb fid uid with
      | true =>
        rw [if_pos rfl]
        exact ⟨hfeq, hvs, hnot2, by simp, hnf2, fun _ => hvd, hfd2⟩
      | false =>
        rw [if_neg Bool.false_ne_true]
        have hsp2 : sp2.isSuccess = false := by
          rw [hvd] at hvs
          cases hs : sp2.isSuccess
          · rfl
          · rw [hs] at hvs; simp at hvs
        refine ⟨hfeq, ?_, ?_, by simp, hnf2, by simp, ?_⟩
        · rw [voteExists_insertVote_self, hsp2]; rfl
        · intro ⟨_, hb⟩; rw [hsp2] at hb; exact Bool.false_ne_true hb
        · intro hcase
          exact voteExists_insertVote_self sdb fid uid
    | done r =>
      dsimp only [concStep, procStep]
      exact ⟨hfeq, hvs, hnot2, hnf1, hnf2, hfd1, hfd2⟩

/-- `ConcInv` holds after running any schedule. -/
theorem concInv_run (fid : Nat) (uid : Str) (db₀ : DB)
    (hfeat : featureExists db₀ fid = true)
    (sched : List Bool) (s : ConcState) (h : ConcInv fid uid db₀ s) :
    ConcInv fid uid db₀ (runConc fid uid s sched) := by
  induction sched generalizing s with
  | nil => exact h
  | cons b rest ih => exact ih _ (concInv_step fid uid db₀ hfeat s b h)

/-- C3 counterexample: from a state whose feature 1 exists and whose pair
`(1, "z")` has not voted, the schedule that runs both callers' feature and
duplicate checks before either insert ends with caller 1 succeeding and
caller 2 failing with the generic storage error (the `UNIQUE` violation
caught by the `except` clause) — not with the `DuplicateVote` failure the
claim promises for every losing caller. -/
theorem conc_losing_caller_gets_generic_error :
    (runConc 1 ['z'] ⟨exDB1, .atStart, .atStart⟩
      [true, false, true, false, true, false]).p1 =
        .done (.success ['z']) ∧
    (runConc 1 ['z'] ⟨exDB1, .atStart, .atStart⟩
      [true, false, true, false, true, false]).p2 = .done .storageError ∧
    AddVoteResult.storageError ≠ AddVoteResult.alreadyVoted := by
  exact ⟨by decide, by decide, by decide⟩

/-- C3 amended: among two concurrent `add_vote` calls for the same
`(feature_id, user_id)` pair on an existing feature with no prior vote,
every completing interleaving produces exactly one success — the
storage-level `UNIQUE(feature_id, user_id)` constraint makes the insert
itself the arbiter, so two successes are impossible — but the code is
check-then-insert, and a loser that passed the duplicate check before the
winner's insert fails with the generic storage error rather than
`DuplicateVote`. -/
theorem conc_exactly_one_success (db : DB) (fid : Nat) (uid : Str)
    (sched : List Bool)
    (hfeat : featureExists db fid = true)
    (hv : voteExists db fid uid = false)
    (h1 : (runConc fid uid ⟨db, .atStart, .atStart⟩ sched).p1.isDone = true)
    (h2 : (runConc fid uid ⟨db, .atStart, .atStart⟩ sched).p2.isDone = true) :
    (runConc fid uid ⟨db, .atStart, .atStart⟩ sched).p1.isSuccess ≠
      (runConc fid uid ⟨db, .atStart, .atStart⟩ sched).p2.isSuccess := by
  have hinit : ConcInv fid uid db ⟨db, .atStart, .atStart⟩ := by
    refine ⟨rfl, hv, by simp [ProcState.isSuccess], by simp, by simp,
      by simp, by simp⟩
  have hinv := concInv_run fid uid db hfeat sched ⟨db, .atStart, .atStart⟩ hinit
  obtain ⟨hfeq, hvs, hnot2, hnf1, hnf2, hfd1, hfd2⟩ := hinv
  obtain ⟨r1, hr1⟩ := (isDone_iff _).mp h1
  obtain ⟨r2, hr2⟩ := (isDone_iff _).mp h2
  rw [hr1] at hvs hnot2 hnf1 hfd1 ⊢
  rw [hr2] at hvs hnot2 hnf2 hfd2 ⊢
  cases r1 <;> cases r2 <;>
    simp_all [ProcState.isSuccess]


/-- C3 witness: the sequential schedule on the one-feature store completes
both callers with exactly one success. -/
theorem conc_exactly_one_success_witness :
    (runConc 1 ['z'] ⟨exDB1, .atStart, .atStart⟩
      [true, true, true, false, false, false]).p1.isSuccess ≠
      (runConc 1 ['z'] ⟨exDB1, .atStart, .atStart⟩
        [true, true, true, false, false, false]).p2.isSuccess :=
  conc_exactly_one_success exDB1 1 ['z'] [true, true, true, false, false, false]
    (by decide) (by decide) (by decide) (by decide)

end FeatureVoting
